import Mathlib

/-!
Verification development for the mcp-forti FortiGate tool adapter.

The Python modules under `tools/` are shallowly embedded: Python JSON-like
values become the inductive type `JVal`, Python dicts become association
lists (first-match lookup, insertion-order append), device-client responses
become the inductive `ApiResponse`, and exceptions raised by the client
become an explicit `Except`/`PyErr` value passed to each operation.  Each
resource operation is translated line-by-line from its source file; the
device call itself is abstracted as an input (its result or raised
exception), since the transport is out of scope.  Logging calls are pure
side effects with no influence on return values and are dropped.
-/

namespace McpForti

/-- JSON-like Python values as produced by `response.json()` or passed as
tool configuration mappings. -/
inductive JVal where
  | s (v : String)
  | i (v : Int)
  | b (v : Bool)
  | arr (items : List JVal)
  | dict (entries : List (String × JVal))
  | none


/-- A Python dict with string keys, in insertion order. -/
abbrev Dict := List (String × JVal)

/-- Python `d.get(k)`: first matching key, `Option.none` when absent. -/
def pyGet (d : Dict) (k : String) : Option JVal :=
  match d with
  | [] => Option.none
  | (k', v) :: rest => if k' = k then some v else pyGet rest k

/-- Python truthiness of a value (`if x:`). -/
def jTruthy : JVal → Bool
  | .s v => v != ""
  | .i v => v != 0
  | .b v => v
  | .arr l => !l.isEmpty
  | .dict l => !l.isEmpty
  | .none => false

/-- Whether a value is a Python `str`. -/
def JVal.isStr : JVal → Bool
  | .s _ => true
  | _ => false

/-- ASCII lower-casing, Python `str.lower()` on the ASCII subset. -/
def pyLower (s : String) : String := String.mk (s.toList.map Char.toLower)

/-- ASCII upper-casing, Python `str.upper()` on the ASCII subset. -/
def pyUpper (s : String) : String := String.mk (s.toList.map Char.toUpper)

/-- Python `str.capitalize()`: first character upper-cased, rest lower-cased. -/
def pyCapitalize (s : String) : String :=
  match s.toList with
  | [] => ""
  | c :: t => String.mk (c.toUpper :: t.map Char.toLower)

/-- Python `str.strip()` (whitespace from both ends). -/
def pyStrip (s : String) : String :=
  String.mk (((s.toList.dropWhile Char.isWhitespace).reverse.dropWhile
    Char.isWhitespace).reverse)

/-- `needle.isPrefixOf hay` on character lists. -/
def startsWithChars : List Char → List Char → Bool
  | [], _ => true
  | _ :: _, [] => false
  | a :: as, b :: bs => a == b && startsWithChars as bs

/-- Substring search on character lists. -/
def hasSubAux (needle : List Char) : List Char → Bool
  | [] => needle.isEmpty
  | c :: t => startsWithChars needle (c :: t) || hasSubAux needle t

/-- Python `needle in hay` on strings (substring containment). -/
def strIn (needle hay : String) : Bool := hasSubAux needle.toList hay.toList

mutual
/-- Python `repr()` of a `JVal` (single-quoted strings, `True`/`False`/`None`). -/
def reprJ : JVal → String
  | .s v => "\x27" ++ v ++ "\x27"
  | .i v => toString v
  | .b true => "True"
  | .b false => "False"
  | .none => "None"
  | .arr l => "[" ++ reprL l ++ "]"
  | .dict l => "\x7b" ++ reprD l ++ "\x7d"

/-- Comma-joined reprs of list items. -/
def reprL : List JVal → String
  | [] => ""
  | [x] => reprJ x
  | x :: y :: t => reprJ x ++ ", " ++ reprL (y :: t)

/-- Comma-joined reprs of dict entries. -/
def reprD : List (String × JVal) → String
  | [] => ""
  | [(k, v)] => "\x27" ++ k ++ "\x27: " ++ reprJ v
  | (k, v) :: y :: t => "\x27" ++ k ++ "\x27: " ++ reprJ v ++ ", " ++ reprD (y :: t)
end

/-- Python `str()` of a `JVal`: the string itself for strings, `repr` otherwise. -/
def pyStr : JVal → String
  | .s v => v
  | v => reprJ v

/-- Python `d.setdefault(k, v)`: the dict after the in-place insertion
(appended at the end, Python insertion order), unchanged if the key exists. -/
def pySetdefault (d : Dict) (k : String) (v : JVal) : Dict :=
  if (pyGet d k).isSome then d else d ++ [(k, v)]

/-- Python list slice `l[:n]` for a possibly negative `n`. -/
def pySliceTo {α : Type} (l : List α) (n : Int) : List α :=
  if n < 0 then l.take (max 0 ((l.length : Int) + n)).toNat else l.take n.toNat

/-- The client-response shapes the source distinguishes: a
`requests.Response`-like object (a `status_code` attribute when present, the
`json()` parse result when the body parses, and the raw `text`), an
already-parsed dict, or any other unexpected value (carrying its `str()`). -/
inductive ApiResponse where
  | httpResp (status_code : Option Int) (jsonBody : Option JVal) (text : String)
  | dictResp (entries : Dict)
  | other (str_val : String)


/-- A response object attached to a raised exception (`e.response`): its
JSON body when it parses to a dict, and its raw text.  (Exception-attached
bodies that parse to non-dict JSON would raise inside the handlers and are
outside the modelled inputs.) -/
structure ExcResp where
  jsonBody : Option Dict
  text : String


/-- An exception raised by a device-client call: whether it is a
`FortiGateClientError`, its `str()` message, and an optional attached
response object. -/
structure PyErr where
  isClientErr : Bool
  msg : String
  resp : Option ExcResp


/-- `str()` of a raw client response object, as interpolated into messages. -/
def apiRespStr : ApiResponse → String
  | .httpResp (some c) _ _ => "<Response [" ++ toString c ++ "]>"
  | .httpResp Option.none _ _ => "<Response [None]>"
  | .dictResp d => pyStr (.dict d)
  | .other s => s

/-- Whether a dict carries `"status": s0` (Python `d.get("status") == s0`). -/
def statusIs (d : Dict) (s0 : String) : Bool :=
  match pyGet d "status" with
  | some (.s t) => t == s0
  | _ => false

/-- Whether a value is a dict whose `status` field equals `"error"`. -/
def dictStatusError : JVal → Bool
  | .dict d => statusIs d "error"
  | _ => false

/-! ## tools/utils.py -/

/-- `tools/utils.py _parse_api_error_details`, as invoked inside
`handle_api_response` on the already-extracted body (a parsed dict or a
string): `data.get("cli_error", data.get("message", str(data)))` for dicts,
`str(x)` otherwise.  The result is whatever value the field holds, not
necessarily a string. -/
def parse_api_error_details (v : JVal) : JVal :=
  match v with
  | .dict d => (pyGet d "cli_error").getD ((pyGet d "message").getD (.s (pyStr v)))
  | _ => .s (pyStr v)

/-- The `response_data` extraction at the top of `handle_api_response`:
the parsed JSON body when it parses, the raw text on a JSON `ValueError`,
the dict itself for dict responses. -/
def response_data_of : ApiResponse → JVal
  | .httpResp _ (some j) _ => j
  | .httpResp _ Option.none t => .s t
  | .dictResp d => .dict d
  | .other s => .s s

/-- The `"results" in api_response and not api_response["results"]` check of
the dict branch. -/
def resultsEmpty (d : Dict) : Bool :=
  match pyGet d "results" with
  | some v => !jTruthy v
  | Option.none => false

/-- The final `else` branch of `handle_api_response` (unexpected type). -/
def unexpectedOutcome (r : ApiResponse) : Except String Dict :=
  .ok [("error", .s "Unexpected response type from API library."),
       ("details", .s (apiRespStr r)), ("http_status", JVal.none)]

/-- `tools/utils.py handle_api_response`.  The VDOM argument only feeds log
lines and is dropped.  A Python `AttributeError` (from `.lower()` on a
non-string error detail) is modelled as `Except.error`. -/
def handle_api_response (api_response : ApiResponse)
    (action_name_for_log : String) : Except String Dict :=
  let rd := response_data_of api_response
  let a := action_name_for_log
  match api_response with
  | .httpResp (some c) _ _ =>
    if c != 0 then
      if 200 ≤ c ∧ c < 300 then
        if dictStatusError rd then
          .ok [("error", .s ("FortiGate API error for " ++ a)), ("details", rd)]
        else
          .ok [("status", .s "success"),
               ("message", .s (pyCapitalize a ++ " completed successfully.")),
               ("details", rd)]
      else
        let ed := parse_api_error_details rd
        if c = 404 then
          .ok [("error", .s (pyCapitalize a ++ " target not found (API error).")),
               ("details", ed), ("http_status", .i c)]
        else
          match ed with
          | .s m =>
            if strIn "not found" (pyLower m) || strIn "entry not found" (pyLower m) then
              .ok [("error", .s (pyCapitalize a ++ " target not found (API error).")),
                   ("details", ed), ("http_status", .i c)]
            else
              .ok [("error", .s ("FortiGate API error (HTTP " ++ toString c ++ ") for " ++ a)),
                   ("details", rd), ("http_status", .i c)]
          | _ => .error "AttributeError: lower on non-string error detail"
    else unexpectedOutcome api_response
  | .httpResp Option.none _ _ => unexpectedOutcome api_response
  | .dictResp d =>
    if statusIs d "success" then
      .ok [("status", .s "success"),
           ("message", .s (pyCapitalize a ++ " completed successfully.")),
           ("details", .dict d)]
    else
      match parse_api_error_details (.dict d) with
      | .s m =>
        if strIn "entry not found" (pyLower m) || resultsEmpty d then
          .ok [("error", .s (pyCapitalize a ++ " target not found (API error).")),
               ("details", .s m), ("http_status", (pyGet d "error").getD (.i (-1)))]
        else
          .ok [("error", .s (pyCapitalize a ++ " failed (dict response)")),
               ("details", .dict d), ("http_status", (pyGet d "error").getD (.i (-1)))]
      | _ => .error "AttributeError: lower on non-string error detail"
  | .other _ => unexpectedOutcome api_response

/-- An outcome mapping is canonical when it is a success (a `status` key
holding `"success"`) or an error (an `error` key present). -/
def canonicalOutcome (d : Dict) : Prop :=
  pyGet d "status" = some (.s "success") ∨ (∃ v, pyGet d "error" = some v)

/-! ## tools/policies.py -/

/-- `tools/policies.py _parse_api_error_details` on an extracted body: this
module-local copy falls back to `error_message` instead of `message`. -/
def parse_api_error_details_p (v : JVal) : JVal :=
  match v with
  | .dict d => (pyGet d "cli_error").getD ((pyGet d "error_message").getD (.s (pyStr v)))
  | _ => .s (pyStr v)

/-- `_parse_api_error_details` applied to an exception's attached response
object (`e.response`): parse the JSON body and read `cli_error` /
`error_message`, or fall back to the raw text on a JSON `ValueError`. -/
def parse_err_resp_p (er : ExcResp) : JVal :=
  match er.jsonBody with
  | some d => (pyGet d "cli_error").getD ((pyGet d "error_message").getD (.s (pyStr (.dict d))))
  | Option.none => .s er.text

/-- The not-found text heuristics shared by the read operations:
`"404" in str(e) or "not found" in str(e).lower() or "entry not found" in
str(e).lower()`. -/
def nfHeur3 (m : String) : Bool :=
  strIn "404" m || strIn "not found" (pyLower m) || strIn "entry not found" (pyLower m)

/-- `tools/policies.py get_policy_details`.  `call` is the result of
`fgt_client.cmdb.firewall.policy.get(mkey=policy_id)`: the returned value, or
the raised exception. -/
def get_policy_details (policy_id : Int) (call : Except PyErr JVal) : JVal :=
  match call with
  | .ok d =>
    if jTruthy d then d
    else .dict [("error", .s ("Policy ID " ++ toString policy_id ++
      " not found (empty response from API)."))]
  | .error e =>
    if nfHeur3 e.msg then
      .dict [("error", .s ("Policy ID " ++ toString policy_id ++ " not found (API error)."))]
    else
      .dict [("error", .s ("An unexpected error occurred while fetching policy " ++
        toString policy_id ++ ": " ++ e.msg))]

/-- The not-found heuristics of `delete_policy`: `"404" in str(e) or
"not found" in str(e).lower() or "Entry not found" in str(e)` (the third
disjunct is case-sensitive). -/
def delNfHeur (m : String) : Bool :=
  strIn "404" m || strIn "not found" (pyLower m) || strIn "Entry not found" m

/-- `tools/policies.py delete_policy`.  `call` is the result of
`fgt_client.cmdb.firewall.policy.delete(uid=policy_id)`. -/
def delete_policy (policy_id : Int) (call : Except PyErr Unit) : Dict :=
  match call with
  | .ok _ =>
    [("status", .s "success"),
     ("message", .s ("Policy ID " ++ toString policy_id ++ " deletion request submitted."))]
  | .error e =>
    if delNfHeur e.msg then
      [("status", .s "success"),
       ("message", .s ("Policy ID " ++ toString policy_id ++ " not found or already deleted."))]
    else
      [("error", .s ("An unexpected error occurred while deleting policy " ++
        toString policy_id ++ ": " ++ e.msg))]

/-- The `"processed"` fallback return of `reorder_policy`. -/
def reorderProcessed (policy_id_to_move : Int) (r : ApiResponse) : Dict :=
  [("status", .s "processed"),
   ("message", .s ("Policy " ++ toString policy_id_to_move ++
     " move action processed. Verify order. Response: " ++ apiRespStr r))]

/-- A response carries no explicit success/error marker when it is not a
dict whose `status` field is `"success"` or `"error"`. -/
def noMarker : ApiResponse → Bool
  | .dictResp d => !(statusIs d "success" || statusIs d "error")
  | _ => true

/-- `tools/policies.py reorder_policy`.  The move payload
`{"action": "move", move_action: target_policy_id}` is built and handed to
the client's `set` call, whose result (or raised exception) is `call`. -/
def reorder_policy (move_action : String) (policy_id_to_move : Int)
    (_target_policy_id : Int) (call : Except PyErr ApiResponse) : Dict :=
  if move_action != "before" && move_action != "after" then
    [("error", .s "Invalid move_action. Must be \x27before\x27 or \x27after\x27.")]
  else
    match call with
    | .error e =>
      [("error", .s ("An unexpected error occurred during policy move for " ++
        toString policy_id_to_move ++ ": " ++ e.msg))]
    | .ok r =>
      match r with
      | .dictResp d =>
        if statusIs d "success" then
          [("status", .s "success"),
           ("message", .s ("Policy " ++ toString policy_id_to_move ++ " moved successfully.")),
           ("details", .dict d)]
        else if statusIs d "error" then
          [("error", .s ("FortiGate API error during policy move: " ++
             pyStr (parse_api_error_details_p (.dict d)))),
           ("details", .dict d)]
        else reorderProcessed policy_id_to_move r
      | _ => reorderProcessed policy_id_to_move r

/-- The required-field list of `create_policy`, in source order. -/
def required_fields : List String :=
  ["name", "srcintf", "dstintf", "srcaddr", "dstaddr", "action", "schedule", "service", "status"]

/-- The five list-valued policy fields. -/
def policy_list_fields : List String :=
  ["srcintf", "dstintf", "srcaddr", "dstaddr", "service"]

/-- One entry of a list-valued policy field is accepted when it is a dict
with a `name` key. -/
def policy_item_ok : JVal → Bool
  | .dict d => (pyGet d "name").isSome
  | _ => false

/-- A list-valued policy field is accepted when it is a list all of whose
entries are dicts with a `name` key (an empty list passes). -/
def policy_list_ok : JVal → Bool
  | .arr items => items.all policy_item_ok
  | _ => false

/-- `str()` of `policy_config.get("name", "UnnamedPolicy")` as interpolated
into the validation messages. -/
def policyNameStr (cfg : Dict) : String :=
  pyStr ((pyGet cfg "name").getD (.s "UnnamedPolicy"))

/-- The `create_policy` validation loop over `required_fields`: the first
failing check's message, or `none` when the config passes. -/
def validate_policy_fields (cfg : Dict) : List String → Option String
  | [] => Option.none
  | f :: rest =>
    match pyGet cfg f with
    | Option.none =>
      some ("Missing required field " ++ ("\x27" ++ f ++ "\x27") ++
        (" in policy configuration for \x27" ++ policyNameStr cfg ++ "\x27."))
    | some v =>
      if policy_list_fields.contains f then
        match v with
        | .arr items =>
          if items.all policy_item_ok then validate_policy_fields cfg rest
          else
            some ("Items in " ++ ("\x27" ++ f ++ "\x27") ++
              (" must be dicts with a \x27name\x27 key for \x27" ++ policyNameStr cfg ++
               "\x27 (e.g., \x7b\"name\": \"port1\"\x7d)."))
        | _ =>
          some ("Field " ++ ("\x27" ++ f ++ "\x27") ++
            (" must be a list for \x27" ++ policyNameStr cfg ++
             "\x27 (e.g., [\x7b\"name\": \"value\"\x7d])."))
      else validate_policy_fields cfg rest

/-- `create_policy`'s input validation (lines 123-138 of policies.py). -/
def validate_policy (cfg : Dict) : Option String :=
  validate_policy_fields cfg required_fields

/-- A single required policy field is acceptable to the validation loop:
present, and (for the five list-valued fields) a list of dicts each with a
`name` key. -/
def policy_field_ok (cfg : Dict) (f : String) : Bool :=
  match pyGet cfg f with
  | Option.none => false
  | some v => !(policy_list_fields.contains f) || policy_list_ok v

/-- `policy_config.get("name", "UnnamedPolicy")`, the value used as the
`mkey` fallback. -/
def policyName (cfg : Dict) : JVal :=
  (pyGet cfg "name").getD (.s "UnnamedPolicy")

/-- The response handling of `create_policy` (lines 140-176): HTTP-status
classification, error-marker check, `mkey` extraction with fallback to the
policy name, dict-response fallback, unexpected-type fallback. -/
def create_policy_resp (pname : JVal) (r : ApiResponse) : Dict :=
  match r with
  | .httpResp (some c) body t =>
    let rd := body.getD (.s t)
    if c != 0 then
      if 200 ≤ c ∧ c < 300 then
        match rd with
        | .dict bd =>
          if statusIs bd "error" then
            [("error", .s ("FortiGate API error for policy \x27" ++ pyStr pname ++ "\x27")),
             ("details", rd)]
          else
            [("status", .s "success"), ("message", .s "Policy created successfully."),
             ("policy_id", (pyGet bd "mkey").getD pname), ("details", rd)]
        | _ =>
          [("status", .s "success"), ("message", .s "Policy created successfully."),
           ("policy_id", pname), ("details", rd)]
      else
        [("error", .s ("FortiGate API error (HTTP " ++ toString c ++ ")")), ("details", rd)]
    else
      [("error", .s "Unexpected response type from API library."),
       ("details", .s (apiRespStr r))]
  | .httpResp Option.none _ _ =>
    [("error", .s "Unexpected response type from API library."),
     ("details", .s (apiRespStr r))]
  | .dictResp d =>
    if statusIs d "success" then
      [("status", .s "success"), ("message", .s "Policy created successfully."),
       ("policy_id", (pyGet d "mkey").getD pname), ("details", .dict d)]
    else
      [("error", .s ("Policy creation failed for \x27" ++ pyStr pname ++ "\x27 (dict response)")),
       ("details", .dict d)]
  | .other s =>
    [("error", .s "Unexpected response type from API library."), ("details", .s s)]

/-- `tools/policies.py create_policy`.  `call` is the result of
`fgt_client.cmdb.firewall.policy.create(data=policy_config)` (reached only
when validation passes). -/
def create_policy (policy_config : Dict) (call : Except PyErr ApiResponse) : Dict :=
  match validate_policy policy_config with
  | some m => [("error", .s m)]
  | Option.none =>
    match call with
    | .error e =>
      let details : JVal := match e.resp with
        | some er => parse_err_resp_p er
        | Option.none => .s e.msg
      [("error", .s ("API exception during policy \x27" ++ pyStr (policyName policy_config) ++
        "\x27 creation.")), ("details", details)]
    | .ok r => create_policy_resp (policyName policy_config) r

/-! ## tools/interfaces.py -/

/-- Python truthiness of the optional name argument (`if interface_name:`):
`None` and the empty string select the collection branch. -/
def truthyName (n : Option String) : Option String :=
  match n with
  | some s => if s = "" then Option.none else some s
  | Option.none => Option.none

/-- `tools/interfaces.py get_interfaces_details`.  `call` is the result of
`fgt_client.cmdb.system.interface.get(...)`. -/
def get_interfaces_details (interface_name : Option String)
    (call : Except PyErr JVal) : JVal :=
  match truthyName interface_name, call with
  | some nm, .ok d =>
    if jTruthy d then d
    else .dict [("error", .s ("Interface \x27" ++ nm ++ "\x27 not found (empty response from API)."))]
  | Option.none, .ok d => d
  | some nm, .error e =>
    if nfHeur3 e.msg then
      .dict [("error", .s ("Interface \x27" ++ nm ++ "\x27 not found (API error)."))]
    else
      .dict [("error", .s ("An unexpected error occurred while fetching interface \x27" ++
        nm ++ "\x27: " ++ e.msg))]
  | Option.none, .error e =>
    .dict [("error", .s ("An unexpected error occurred while fetching all interfaces: " ++ e.msg))]

/-! ## tools/static_routes.py -/

/-- `tools/static_routes.py _parse_api_error_details` applied to an
exception's attached response (this module-local copy reads `message`). -/
def parse_err_resp_s (er : ExcResp) : JVal :=
  match er.jsonBody with
  | some d => (pyGet d "cli_error").getD ((pyGet d "message").getD (.s (pyStr (.dict d))))
  | Option.none => .s er.text

/-- `tools/static_routes.py get_static_routes`.  The branch test is
`route_seq_num is not None` (identity, not truthiness), so sequence number 0
still selects the single-item branch. -/
def get_static_routes (route_seq_num : Option Int) (call : Except PyErr JVal) : JVal :=
  match route_seq_num, call with
  | some n, .ok d =>
    if jTruthy d then d
    else .dict [("error", .s ("Static route with seq-num \x27" ++ toString n ++
      "\x27 not found (empty API response)."))]
  | Option.none, .ok d => d
  | some n, .error e =>
    if nfHeur3 e.msg then
      .dict [("error", .s ("Static route with seq-num \x27" ++ toString n ++
        "\x27 not found (API error)."))]
    else
      .dict [("error", .s ("An unexpected error occurred while fetching static route with seq-num \x27" ++
        toString n ++ "\x27: " ++ e.msg))]
  | Option.none, .error e =>
    .dict [("error", .s ("An unexpected error occurred while fetching all static routes: " ++ e.msg))]

/-- The `create_static_route` required-field validation (dst, gateway,
device, in source order): the first missing field's message. -/
def validate_route (cfg : Dict) : Option String :=
  let dstLog := pyStr ((pyGet cfg "dst").getD (.s "N/A"))
  let missing := fun (f : String) =>
    "Missing required field \x27" ++ f ++ "\x27 in static route configuration for dst \x27" ++
      dstLog ++ "\x27."
  if (pyGet cfg "dst").isNone then some (missing "dst")
  else if (pyGet cfg "gateway").isNone then some (missing "gateway")
  else if (pyGet cfg "device").isNone then some (missing "device")
  else Option.none

/-- The response handling of `create_static_route` (lines 66-102):
status classification and `mkey`/`seq-num` extraction. -/
def route_resp_handle (dstLog : JVal) (r : ApiResponse) : Dict :=
  match r with
  | .httpResp (some c) body t =>
    let rd := body.getD (.s t)
    if c != 0 then
      if 200 ≤ c ∧ c < 300 then
        match rd with
        | .dict bd =>
          if statusIs bd "error" then
            [("error", .s ("FortiGate API error for dst \x27" ++ pyStr dstLog ++ "\x27")),
             ("details", rd)]
          else
            [("status", .s "success"), ("message", .s "Static route created successfully."),
             ("seq-num", (pyGet bd "mkey").getD ((pyGet bd "seq-num").getD JVal.none)),
             ("details", rd)]
        | _ =>
          [("status", .s "success"), ("message", .s "Static route created successfully."),
           ("seq-num", JVal.none), ("details", rd)]
      else
        [("error", .s ("FortiGate API error (HTTP " ++ toString c ++ ") for dst \x27" ++
           pyStr dstLog ++ "\x27")), ("details", rd)]
    else
      [("error", .s "Unexpected response type from API library."),
       ("details", .s (apiRespStr r))]
  | .httpResp Option.none _ _ =>
    [("error", .s "Unexpected response type from API library."),
     ("details", .s (apiRespStr r))]
  | .dictResp d =>
    if statusIs d "success" then
      [("status", .s "success"), ("message", .s "Static route created successfully."),
       ("seq-num", (pyGet d "mkey").getD ((pyGet d "seq-num").getD JVal.none)),
       ("details", .dict d)]
    else
      [("error", .s ("Static route creation for dst \x27" ++ pyStr dstLog ++
         "\x27 failed (dict response)")), ("details", .dict d)]
  | .other s =>
    [("error", .s "Unexpected response type from API library."), ("details", .s s)]

/-- `tools/static_routes.py create_static_route`.  The device call receives
the very mapping the caller supplied, after the in-place
`route_config.setdefault("status", "enable")`; `call` maps that mapping to
the client's result.  The return value pairs the source function's returned
outcome with the caller's mapping as it stands after the call (exposing the
in-place mutation). -/
def create_static_route (route_config : Dict)
    (call : Dict → Except PyErr ApiResponse) : Dict × Dict :=
  match validate_route route_config with
  | some m => ([("error", .s m)], route_config)
  | Option.none =>
    let cfg' := pySetdefault route_config "status" (.s "enable")
    let dstLog := (pyGet route_config "dst").getD (.s "N/A")
    let out := match call cfg' with
      | .error e =>
        let details : JVal := match e.resp with
          | some er => parse_err_resp_s er
          | Option.none => .s e.msg
        [("error", .s ("API exception during static route creation for dst \x27" ++
          pyStr dstLog ++ "\x27.")), ("details", details)]
      | .ok r => route_resp_handle dstLog r
    (out, cfg')

/-! ## tools/address_objects.py -/

/-- Whether a config's `type` field equals the given string (Python
`object_config["type"] == t`). -/
def typeIs (cfg : Dict) (t : String) : Bool :=
  match pyGet cfg "type" with
  | some (.s x) => x == t
  | _ => false

/-- The input validation of `create_address_object` (lines 25-41): `name`,
`type`, and the type-specific required sub-fields. -/
def validate_address (cfg : Dict) : Option String :=
  if (pyGet cfg "name").isNone then
    some "Missing \x27name\x27 (unique identifier) in address object configuration."
  else if (pyGet cfg "type").isNone then
    some ("Missing \x27type\x27 in address object configuration for \x27" ++
      pyStr ((pyGet cfg "name").getD JVal.none) ++ "\x27.")
  else
    let objName := pyStr ((pyGet cfg "name").getD JVal.none)
    if typeIs cfg "fqdn" && (pyGet cfg "fqdn").isNone then
      some ("Missing \x27fqdn\x27 for FQDN address object \x27" ++ objName ++ "\x27.")
    else if typeIs cfg "iprange" &&
        ((pyGet cfg "start-ip").isNone || (pyGet cfg "end-ip").isNone) then
      some ("Missing \x27start-ip\x27 or \x27end-ip\x27 for IP range object \x27" ++ objName ++ "\x27.")
    else if typeIs cfg "ipmask" && (pyGet cfg "subnet").isNone then
      some ("Missing \x27subnet\x27 (e.g., \x27192.168.1.0 255.255.255.0\x27 or \x27192.168.1.0/24\x27) for ipmask object \x27" ++
        objName ++ "\x27.")
    else Option.none

/-- Whether a dict carries `"http_status": 200` (Python
`d.get("http_status") == 200`). -/
def httpStatusIs200 (d : Dict) : Bool :=
  match pyGet d "http_status" with
  | some (.i n) => n == 200
  | _ => false

/-- `tools/address_objects.py create_address_object`.  `call` is the result
of `fgt_client.cmdb.firewall.address.create(data=object_config)`. -/
def create_address_object (object_config : Dict)
    (call : Except PyErr ApiResponse) : Dict :=
  match validate_address object_config with
  | some m => [("error", .s m)]
  | Option.none =>
    let objName := pyStr ((pyGet object_config "name").getD JVal.none)
    match call with
    | .error e =>
      if e.isClientErr then
        [("error", .s ("FortiGate client error: " ++ e.msg))]
      else
        let details : JVal := match e.resp with
          | some er =>
            match er.jsonBody with
            | some d => .dict d
            | Option.none => .s er.text
          | Option.none => .s e.msg
        if strIn "Command fail" (pyStr details) ||
            strIn "entry not found" (pyLower (pyStr details)) then
          [("error", .s ("FortiGate CLI error for \x27" ++ objName ++
            "\x27. Check if the object already exists or config is invalid.")),
           ("details", details)]
        else
          [("error", .s ("An API error occurred for \x27" ++ objName ++ "\x27.")),
           ("details", details)]
    | .ok r =>
      match r with
      | .httpResp (some c) body text =>
        let rt : JVal := body.getD (.s text)
        if 200 ≤ c ∧ c < 300 then
          if dictStatusError rt then
            [("error", .s ("FortiGate API error for \x27" ++ objName ++ "\x27")),
             ("details", rt)]
          else
            [("status", .s "success"),
             ("message", .s ("Address object \x27" ++ objName ++
               "\x27 creation request sent. Review FortiGate. HTTP Status: " ++ toString c)),
             ("details", rt)]
        else if c = 500 then
          if strIn "already exist" (pyLower (pyStr rt)) ||
              strIn "duplicate entry" (pyLower (pyStr rt)) then
            [("status", .s "warning"),
             ("message", .s ("Address object \x27" ++ objName ++
               "\x27 might already exist (HTTP 500).")),
             ("details", rt)]
          else
            [("error", .s ("FortiGate API error (HTTP " ++ toString c ++ ") for \x27" ++
               objName ++ "\x27")), ("details", rt)]
        else
          [("error", .s ("FortiGate API error (HTTP " ++ toString c ++ ") for \x27" ++
             objName ++ "\x27")), ("details", rt)]
      | .dictResp d =>
        if statusIs d "success" && httpStatusIs200 d then
          [("status", .s "success"),
           ("message", .s ("Address object \x27" ++ objName ++ "\x27 created successfully.")),
           ("details", .dict d)]
        else
          [("error", .s ("FortiGate API error creating \x27" ++ objName ++ "\x27 (parsed dict)")),
           ("details", .dict d)]
      | r' =>
        [("status", .s "unknown"),
         ("message", .s ("Address object \x27" ++ objName ++
           "\x27 creation attempted. Review FortiGate. Unexpected response type. Raw: " ++
           apiRespStr r')),
         ("details", .s (apiRespStr r'))]

/-- The not-found heuristics of `get_address_object` (no separate
`entry not found` disjunct): `"404" in str(e) or "not found" in str(e).lower()`. -/
def nfHeur2 (m : String) : Bool :=
  strIn "404" m || strIn "not found" (pyLower m)

/-- `str()` of the optional name as interpolated into the exception-branch
message (`None` when absent). -/
def optNameStr : Option String → String
  | some s => s
  | Option.none => "None"

/-- `tools/address_objects.py get_address_object`.  `call` is the result of
`fgt_client.cmdb.firewall.address.get(...)`.  `FortiGateClientError` is
caught before the not-found heuristics. -/
def get_address_object (object_name : Option String) (call : Except PyErr JVal) : JVal :=
  match call with
  | .error e =>
    if e.isClientErr then
      .dict [("error", .s ("FortiGate client error: " ++ e.msg))]
    else if nfHeur2 e.msg then
      .dict [("error", .s ("Address object \x27" ++ optNameStr object_name ++
        "\x27 not found (API error)."))]
    else
      .dict [("error", .s ("An unexpected error occurred: " ++ e.msg))]
  | .ok d =>
    match truthyName object_name with
    | some nm =>
      if jTruthy d then d
      else .dict [("error", .s ("Address object \x27" ++ nm ++ "\x27 not found."))]
    | Option.none => d

/-! ## tools/service_objects.py -/

/-- The input validation of `create_service_object` (lines 26-52).  The
`.upper()` call on a non-string `protocol` value would raise; that raise is
modelled as `Except.error`.  The dynamic attribute-path resolution of the
client method is assumed to succeed (a property of the client object, which
is out of scope). -/
def validate_service (cfg : Dict) : Except String (Option String) :=
  if (pyGet cfg "name").isNone then
    .ok (some "Missing \x27name\x27 in service object configuration.")
  else
    let sname := pyStr ((pyGet cfg "name").getD JVal.none)
    match pyGet cfg "protocol" with
    | some (.s p) => .ok (validate_service_proto cfg sname (pyUpper p))
    | some _ => .error "AttributeError: upper on non-string protocol"
    | Option.none => .ok (validate_service_proto cfg sname (pyUpper ""))
where
  validate_service_proto (cfg : Dict) (sname proto : String) : Option String :=
    if proto = "TCP/UDP/SCTP" then
      if !(jTruthy ((pyGet cfg "tcp-portrange").getD JVal.none)) &&
         !(jTruthy ((pyGet cfg "udp-portrange").getD JVal.none)) &&
         !(jTruthy ((pyGet cfg "sctp-portrange").getD JVal.none)) then
        some ("For protocol TCP/UDP/SCTP, at least one of \x27tcp-portrange\x27, \x27udp-portrange\x27, or \x27sctp-portrange\x27 must be set for service \x27" ++
          sname ++ "\x27.")
      else Option.none
    else if proto = "IP" ∧ (pyGet cfg "protocol-number").isNone then
      some ("For protocol IP, \x27protocol-number\x27 must be set for service \x27" ++
        sname ++ "\x27.")
    else Option.none

/-- The shared response handling of service object/group creation: the
`response_json or response_text` fallback for the `details` field. -/
def svcDetails (body : Option JVal) (text : String) : JVal :=
  let rj := body.getD (.dict [])
  if jTruthy rj then rj else .s text

/-- `tools/service_objects.py create_service_object`.  `call` is the result
of the resolved `cmdb.firewall_service.custom.create(data=service_config)`
call.  A raise from `.upper()` on a non-string protocol is the `.error`
case of the result. -/
def create_service_object (service_config : Dict)
    (call : Except PyErr ApiResponse) : Except String Dict :=
  match validate_service service_config with
  | .error e => .error e
  | .ok (some m) => .ok [("error", .s m)]
  | .ok Option.none =>
    let sname := pyStr ((pyGet service_config "name").getD JVal.none)
    match call with
    | .error e =>
      if e.isClientErr then
        .ok [("error", .s ("FortiGate client error: " ++ e.msg))]
      else
        .ok [("error", .s ("An API error occurred for \x27" ++ sname ++ "\x27.")),
             ("details", .s e.msg)]
    | .ok r =>
      match r with
      | .httpResp (some c) body text =>
        let rj := body.getD (.dict [])
        if 200 ≤ c ∧ c < 300 then
          if dictStatusError rj then
            .ok [("error", .s ("FortiGate API error for service \x27" ++ sname ++ "\x27")),
                 ("details", rj)]
          else
            .ok [("status", .s "success"),
                 ("message", .s ("Service object \x27" ++ sname ++ "\x27 creation request sent.")),
                 ("details", svcDetails body text)]
        else if c = 500 ∧ strIn "already exist" (pyLower text) then
          .ok [("status", .s "error"),
               ("message", .s ("Service object \x27" ++ sname ++ "\x27 may already exist.")),
               ("details", svcDetails body text), ("error_code", .i c)]
        else
          .ok [("error", .s ("FortiGate API error (HTTP " ++ toString c ++ ") for \x27" ++
                 sname ++ "\x27")), ("details", svcDetails body text)]
      | .dictResp d => .ok d
      | r' =>
        .ok [("error", .s "Unexpected response type from API library for service creation."),
             ("details", .s (apiRespStr r'))]

/-- The input validation of `create_service_group` (lines 224-229). -/
def validate_group (cfg : Dict) : Option String :=
  if (pyGet cfg "name").isNone then
    some "Missing \x27name\x27 in service group configuration."
  else
    match pyGet cfg "member" with
    | some (.arr _) => Option.none
    | _ =>
      some ("Missing or invalid \x27member\x27 list. It should be a list of service name dicts, e.g., [\x7b\x27name\x27: \x27SERVICE_NAME\x27\x7d].")

/-- `tools/service_objects.py create_service_group`.  `call` is the result
of the resolved `cmdb.firewall_service.group.create(data=group_config)`
call; path resolution is assumed to succeed. -/
def create_service_group (group_config : Dict)
    (call : Except PyErr ApiResponse) : Dict :=
  match validate_group group_config with
  | some m => [("error", .s m)]
  | Option.none =>
    let gname := pyStr ((pyGet group_config "name").getD JVal.none)
    match call with
    | .error e =>
      if e.isClientErr then
        [("error", .s ("FortiGate client error: " ++ e.msg))]
      else
        [("error", .s ("An API error occurred for service group \x27" ++ gname ++ "\x27.")),
         ("details", .s e.msg)]
    | .ok r =>
      match r with
      | .httpResp (some c) body text =>
        let rj := body.getD (.dict [])
        if 200 ≤ c ∧ c < 300 then
          if dictStatusError rj then
            [("error", .s ("FortiGate API error for service group \x27" ++ gname ++ "\x27")),
             ("details", rj)]
          else
            [("status", .s "success"),
             ("message", .s ("Service group \x27" ++ gname ++ "\x27 creation request sent.")),
             ("details", svcDetails body text)]
        else if c = 500 ∧ strIn "already exist" (pyLower text) then
          [("status", .s "error"),
           ("message", .s ("Service group \x27" ++ gname ++ "\x27 may already exist.")),
           ("details", svcDetails body text), ("error_code", .i c)]
        else
          [("error", .s ("FortiGate API error (HTTP " ++ toString c ++ ") for \x27" ++
             gname ++ "\x27")), ("details", svcDetails body text)]
      | .dictResp d => d
      | r' =>
        [("error", .s "Unexpected response type from API library for service group creation."),
         ("details", .s (apiRespStr r'))]

/-! ## tools/traffic_logs.py -/

/-- The fixed three-row mock sample set of `get_traffic_logs`, field order
as in the source. -/
def mock_logs : List Dict :=
  [[("logid", .s "0000000013"), ("timestamp", .s "2024-05-18 10:00:00"),
    ("srcip", .s "10.0.1.10"), ("dstip", .s "8.8.8.8"), ("dstport", .s "53"),
    ("proto", .i 17), ("action", .s "accept"), ("policyid", .i 1),
    ("msg", .s "Mock Traffic: DNS query accepted")],
   [("logid", .s "0000000014"), ("timestamp", .s "2024-05-18 10:00:05"),
    ("srcip", .s "10.0.1.11"), ("dstip", .s "1.1.1.1"), ("dstport", .s "443"),
    ("proto", .i 6), ("action", .s "accept"), ("policyid", .i 2),
    ("msg", .s "Mock Traffic: HTTPS accepted")],
   [("logid", .s "0000000015"), ("timestamp", .s "2024-05-18 10:00:10"),
    ("srcip", .s "192.168.1.100"), ("dstip", .s "10.0.1.10"), ("dstport", .s "22"),
    ("proto", .i 6), ("action", .s "deny"), ("policyid", .i 0),
    ("msg", .s "Mock Traffic: SSH attempt denied")]]

/-- `log_filter.split("=", 1)` as used for unpacking into two parts:
the pieces around the first `=`, or `Option.none` (a `ValueError`) when no
`=` occurs. -/
def splitOnceEq (s : String) : Option (String × String) :=
  (splitEqChars s.toList).map (fun p => (String.mk p.1, String.mk p.2))
where
  splitEqChars : List Char → Option (List Char × List Char)
    | [] => Option.none
    | c :: t =>
      if c = '=' then some ([], t)
      else match splitEqChars t with
        | some (a, b) => some (c :: a, b)
        | Option.none => Option.none

/-- The `key=value` row predicate of the mock filter:
`str(log.get(key.strip())).lower() == value.strip().lower()`. -/
def logMatchesKV (k v : String) (log : Dict) : Bool :=
  pyLower (pyStr ((pyGet log (pyStrip k)).getD JVal.none)) == pyLower (pyStrip v)

/-- The fallback substring row predicate:
`log_filter.lower() in str(log).lower()`. -/
def logMatchesSub (f : String) (log : Dict) : Bool :=
  strIn (pyLower f) (pyLower (pyStr (.dict log)))

/-- `tools/traffic_logs.py get_traffic_logs`.  The function never touches
the client or the time range: the mock rows are filtered by the optional
filter string and truncated by the Python slice `[:max_logs]`.  The
exception handlers at the bottom of the source are unreachable for these
inputs (no client call is made and the body's string operations cannot
raise), so the return is always the plain list. -/
def get_traffic_logs {α : Type} (_fgt_client : α) (log_filter : Option String)
    (max_logs : Int) (_time_range : String) : List Dict :=
  let filtered :=
    match log_filter with
    | Option.none => mock_logs
    | some f =>
      if f = "" then mock_logs
      else
        match splitOnceEq f with
        | some (k, v) => mock_logs.filter (logMatchesKV k v)
        | Option.none => mock_logs.filter (logMatchesSub f)
  pySliceTo filtered max_logs

/-! ## Helper lemmas -/

theorem pyGet_head (k : String) (v : JVal) (rest : Dict) :
    pyGet ((k, v) :: rest) k = some v := by
  simp [pyGet]

theorem canonical_err (v : JVal) (rest : Dict) :
    canonicalOutcome (("error", v) :: rest) :=
  Or.inr ⟨v, pyGet_head _ _ _⟩

theorem canonical_succ (rest : Dict) :
    canonicalOutcome (("status", JVal.s "success") :: rest) :=
  Or.inl (pyGet_head _ _ _)

theorem isStr_exists {v : JVal} (h : v.isStr = true) : ∃ m, v = .s m := by
  cases v with
  | s m => exact ⟨m, rfl⟩
  | i n => simp [JVal.isStr] at h
  | b b => simp [JVal.isStr] at h
  | arr l => simp [JVal.isStr] at h
  | dict l => simp [JVal.isStr] at h
  | none => simp [JVal.isStr] at h

/-! ## Claims -/

/-- C1 (counterexample): the claim "handle_api_response never raises and its
error-detail extraction always yields a string" is false on the code.  A
500-status response whose JSON body is `{"cli_error": 5}` makes
`_parse_api_error_details` return the integer `5`, and the subsequent
`error_detail.lower()` call in `handle_api_response` raises
`AttributeError`. -/
theorem c1_counterexample :
    parse_api_error_details (response_data_of
      (.httpResp (some 500) (some (.dict [("cli_error", .i 5)])) "body")) = .i 5 ∧
    (JVal.i 5).isStr = false ∧
    handle_api_response (.httpResp (some 500) (some (.dict [("cli_error", .i 5)])) "body")
      "policy creation" = .error "AttributeError: lower on non-string error detail" :=
  ⟨rfl, rfl, rfl⟩

/-- C1 (amended): for every client response value of any of the three input
shapes, provided the error-detail extraction of its extracted body yields a
string (which `_parse_api_error_details` does not guarantee: it returns a
non-string `cli_error`/`message` field value as-is, on which
`handle_api_response` then raises `AttributeError`), `handle_api_response`
returns a canonical outcome: a mapping with `status: "success"` or a mapping
with an `error` key. -/
theorem c1_amended_canonical_outcomes (r : ApiResponse) (a : String)
    (h : (parse_api_error_details (response_data_of r)).isStr = true) :
    ∃ d, handle_api_response r a = .ok d ∧ canonicalOutcome d := by
  obtain ⟨m, hm⟩ := isStr_exists h
  cases r with
  | other s => exact ⟨_, rfl, canonical_err _ _⟩
  | dictResp d =>
    by_cases hs : statusIs d "success" = true
    · simp only [handle_api_response, hs, if_true]
      exact ⟨_, rfl, canonical_succ _⟩
    · have hm' : parse_api_error_details (.dict d) = .s m := hm
      by_cases hnf : (strIn "entry not found" (pyLower m) || resultsEmpty d) = true
      · simp only [handle_api_response, hs, if_false, Bool.false_eq_true, hm', hnf, if_true]
        exact ⟨_, rfl, canonical_err _ _⟩
      · simp only [handle_api_response, hs, if_false, Bool.false_eq_true, hm', hnf, if_true]
        exact ⟨_, rfl, canonical_err _ _⟩
  | httpResp sc body t =>
    cases sc with
    | none => exact ⟨_, rfl, canonical_err _ _⟩
    | some c =>
      by_cases h0 : (c != 0) = true
      · by_cases h2 : 200 ≤ c ∧ c < 300
        · by_cases hde :
              dictStatusError (response_data_of (.httpResp (some c) body t)) = true
          · simp only [handle_api_response, h0, h2, hde, if_true]
            exact ⟨_, rfl, canonical_err _ _⟩
          · simp only [handle_api_response, h0, h2, hde, if_true, if_false,
              Bool.false_eq_true]
            exact ⟨_, rfl, canonical_succ _⟩
        · by_cases h404 : c = 404
          · simp only [handle_api_response, h0, h2, h404, if_true, if_false]
            exact ⟨_, rfl, canonical_err _ _⟩
          · by_cases hnf :
                (strIn "not found" (pyLower m) || strIn "entry not found" (pyLower m)) = true
            · simp only [handle_api_response, h0, h2, h404, hm, hnf, if_true, if_false]
              exact ⟨_, rfl, canonical_err _ _⟩
            · simp only [handle_api_response, h0, h2, h404, hm, hnf, if_true, if_false,
                Bool.false_eq_true]
              exact ⟨_, rfl, canonical_err _ _⟩
      · simp only [handle_api_response, h0, Bool.false_eq_true, if_false]
        exact ⟨_, rfl, canonical_err _ _⟩

/-- C1 (witness): the amended theorem applied to the concrete dict response
`{"message": "boom"}`. -/
theorem c1_witness :
    ∃ d, handle_api_response (.dictResp [("message", .s "boom")]) "interface creation" = .ok d ∧
      canonicalOutcome d :=
  c1_amended_canonical_outcomes (.dictResp [("message", .s "boom")]) "interface creation" rfl

/-- C2 (counterexample): the claim "every create operation reports
`status: "warning"` on a 500/already-exist response" is false for
`create_service_object`: on HTTP 500 with body text `"Object already
exists"` it returns `status: "error"`, not `"warning"`. -/
theorem c2_counterexample :
    create_service_object [("name", .s "svc1")]
      (.ok (.httpResp (some 500) Option.none "Object already exists")) =
      .ok [("status", .s "error"),
           ("message", .s "Service object \x27svc1\x27 may already exist."),
           ("details", .s "Object already exists"), ("error_code", .i 500)] ∧
    strIn "already exist" (pyLower "Object already exists") = true ∧
    ("error" : String) ≠ "warning" :=
  ⟨rfl, rfl, by decide⟩

/-- C2 (amended): on an HTTP 500 response whose body text contains
"already exist", `create_address_object` reports the non-fatal
`status: "warning"` conflict outcome, but `create_service_object` and
`create_service_group` instead return a mapping with `status: "error"`
(message `"... may already exist."`, `error_code` 500). -/
theorem c2_amended_conflict_statuses :
    (∀ (cfg : Dict) (body : Option JVal) (text : String),
      validate_address cfg = Option.none →
      strIn "already exist" (pyLower (pyStr (body.getD (.s text)))) = true →
      pyGet (create_address_object cfg (.ok (.httpResp (some 500) body text))) "status" =
        some (.s "warning")) ∧
    (∀ (cfg : Dict) (body : Option JVal) (text : String),
      validate_service cfg = .ok Option.none →
      strIn "already exist" (pyLower text) = true →
      ∃ d, create_service_object cfg (.ok (.httpResp (some 500) body text)) = .ok d ∧
        pyGet d "status" = some (.s "error") ∧
        pyGet d "message" = some (.s ("Service object \x27" ++
          pyStr ((pyGet cfg "name").getD JVal.none) ++ "\x27 may already exist."))) ∧
    (∀ (cfg : Dict) (body : Option JVal) (text : String),
      validate_group cfg = Option.none →
      strIn "already exist" (pyLower text) = true →
      pyGet (create_service_group cfg (.ok (.httpResp (some 500) body text))) "status" =
        some (.s "error")) := by
  refine ⟨?_, ?_, ?_⟩
  · intro cfg body text hval h2
    simp [create_address_object, hval, h2, pyGet]
  · intro cfg body text hval h2
    simp only [create_service_object, hval]
    simp [h2]
    exact ⟨rfl, rfl⟩
  · intro cfg body text hval h2
    simp [create_service_group, hval, h2, pyGet]

/-- C2 (witness): the amended theorem applied to concrete configurations and
a concrete 500/already-exist response. -/
theorem c2_witness :
    pyGet (create_address_object [("name", .s "a1"), ("type", .s "fqdn"), ("fqdn", .s "x.com")]
      (.ok (.httpResp (some 500) Option.none "Object already exists"))) "status" =
      some (.s "warning") ∧
    pyGet (create_service_group [("name", .s "g1"), ("member", .arr [])]
      (.ok (.httpResp (some 500) Option.none "Object already exists"))) "status" =
      some (.s "error") :=
  ⟨c2_amended_conflict_statuses.1 [("name", .s "a1"), ("type", .s "fqdn"), ("fqdn", .s "x.com")]
      Option.none "Object already exists" rfl rfl,
   c2_amended_conflict_statuses.2.2 [("name", .s "g1"), ("member", .arr [])]
      Option.none "Object already exists" rfl rfl⟩

/-- C3 (counterexample): the claim "an exception whose text matches the
not-found heuristics always yields a `<resource> '<id>' not found` error" is
false for `get_address_object`: a `FortiGateClientError` whose text is
`"Entry not found"` matches the heuristics but is reported as a generic
client error that does not even mention the requested name. -/
theorem c3_counterexample :
    get_address_object (some "web") (.error ⟨true, "Entry not found", Option.none⟩) =
      .dict [("error", .s "FortiGate client error: Entry not found")] ∧
    nfHeur2 "Entry not found" = true ∧
    strIn "web" "FortiGate client error: Entry not found" = false :=
  ⟨rfl, rfl, rfl⟩

/-- C3 (amended): single-item reads (`get_policy_details`,
`get_interfaces_details` with a truthy name, `get_static_routes` with a
seq-num, `get_address_object` with a truthy name) map an empty result, or a
generic exception matching the not-found heuristics, to the structured
`not found` error mapping, never an empty success; except that
`get_address_object` reports a `FortiGateClientError` as a generic client
error even when its text matches the heuristics. -/
theorem c3_amended_not_found_reads :
    (∀ (pid : Int) (d : JVal), jTruthy d = false →
      get_policy_details pid (.ok d) =
        .dict [("error", .s ("Policy ID " ++ toString pid ++
          " not found (empty response from API)."))]) ∧
    (∀ (pid : Int) (e : PyErr), nfHeur3 e.msg = true →
      get_policy_details pid (.error e) =
        .dict [("error", .s ("Policy ID " ++ toString pid ++ " not found (API error)."))]) ∧
    (∀ (nm : String) (d : JVal), nm ≠ "" → jTruthy d = false →
      get_interfaces_details (some nm) (.ok d) =
        .dict [("error", .s ("Interface \x27" ++ nm ++
          "\x27 not found (empty response from API)."))]) ∧
    (∀ (nm : String) (e : PyErr), nm ≠ "" → nfHeur3 e.msg = true →
      get_interfaces_details (some nm) (.error e) =
        .dict [("error", .s ("Interface \x27" ++ nm ++ "\x27 not found (API error)."))]) ∧
    (∀ (n : Int) (d : JVal), jTruthy d = false →
      get_static_routes (some n) (.ok d) =
        .dict [("error", .s ("Static route with seq-num \x27" ++ toString n ++
          "\x27 not found (empty API response)."))]) ∧
    (∀ (n : Int) (e : PyErr), nfHeur3 e.msg = true →
      get_static_routes (some n) (.error e) =
        .dict [("error", .s ("Static route with seq-num \x27" ++ toString n ++
          "\x27 not found (API error)."))]) ∧
    (∀ (nm : String) (d : JVal), nm ≠ "" → jTruthy d = false →
      get_address_object (some nm) (.ok d) =
        .dict [("error", .s ("Address object \x27" ++ nm ++ "\x27 not found."))]) ∧
    (∀ (nm : Option String) (e : PyErr), e.isClientErr = false → nfHeur2 e.msg = true →
      get_address_object nm (.error e) =
        .dict [("error", .s ("Address object \x27" ++ optNameStr nm ++
          "\x27 not found (API error)."))]) := by
  refine ⟨?_, ?_, ?_, ?_, ?_, ?_, ?_, ?_⟩
  · intro pid d hd; simp [get_policy_details, hd]
  · intro pid e he; simp [get_policy_details, he]
  · intro nm d hne hd; simp [get_interfaces_details, truthyName, hne, hd]
  · intro nm e hne he; simp [get_interfaces_details, truthyName, hne, he]
  · intro n d hd; simp [get_static_routes, hd]
  · intro n e he; simp [get_static_routes, he]
  · intro nm d hne hd; simp [get_address_object, truthyName, hne, hd]
  · intro nm e hce he; simp [get_address_object, hce, he]

/-- C3 (witness): the amended theorem applied to a concrete empty policy
read and a concrete 404-text exception on an address object read. -/
theorem c3_witness :
    get_policy_details 7 (.ok (.arr [])) =
      .dict [("error", .s "Policy ID 7 not found (empty response from API).")] ∧
    get_address_object (some "web2") (.error ⟨false, "HTTP 404", Option.none⟩) =
      .dict [("error", .s "Address object \x27web2\x27 not found (API error).")] :=
  ⟨c3_amended_not_found_reads.1 7 (.arr []) rfl,
   c3_amended_not_found_reads.2.2.2.2.2.2.2 (some "web2")
     ⟨false, "HTTP 404", Option.none⟩ rfl rfl⟩

theorem startsWith_self_append (n b : List Char) :
    startsWithChars n (n ++ b) = true := by
  induction n with
  | nil => simp [startsWithChars]
  | cons c t ih => simp [startsWithChars, ih]

theorem hasSub_nil (b : List Char) : hasSubAux [] b = true := by
  cases b with
  | nil => simp [hasSubAux, List.isEmpty]
  | cons c t => simp [hasSubAux, startsWithChars]

theorem hasSub_mid (a n b : List Char) : hasSubAux n (a ++ n ++ b) = true := by
  induction a with
  | nil =>
    cases n with
    | nil => simpa using hasSub_nil b
    | cons c t =>
      show hasSubAux (c :: t) (c :: (t ++ b)) = true
      rw [hasSubAux]
      simp only [Bool.or_eq_true]
      exact Or.inl (by simpa using startsWith_self_append (c :: t) b)
  | cons x xs ih =>
    show hasSubAux n (x :: (xs ++ n ++ b)) = true
    rw [hasSubAux]
    simp only [Bool.or_eq_true]
    exact Or.inr ih

theorem strIn_mid (a n b : String) : strIn n (a ++ n ++ b) = true := by
  simpa [strIn, String.toList, String.data_append] using
    hasSub_mid a.toList n.toList b.toList

theorem validate_fields_none_iff (cfg : Dict) (fs : List String) :
    validate_policy_fields cfg fs = Option.none ↔
      ∀ f ∈ fs, policy_field_ok cfg f = true := by
  induction fs with
  | nil => simp [validate_policy_fields]
  | cons f rest ih =>
    cases hg : pyGet cfg f with
    | none => simp [validate_policy_fields, hg, policy_field_ok]
    | some v =>
      by_cases hl : f ∈ policy_list_fields
      · cases v with
        | arr items =>
          by_cases hitems : items.all policy_item_ok = true
          · simp [validate_policy_fields, hg, hl, hitems, policy_field_ok,
              policy_list_ok, ih]
          · simp [validate_policy_fields, hg, hl, hitems, policy_field_ok,
              policy_list_ok]
        | s x => simp [validate_policy_fields, hg, hl, policy_field_ok, policy_list_ok]
        | i x => simp [validate_policy_fields, hg, hl, policy_field_ok, policy_list_ok]
        | b x => simp [validate_policy_fields, hg, hl, policy_field_ok, policy_list_ok]
        | dict x => simp [validate_policy_fields, hg, hl, policy_field_ok, policy_list_ok]
        | none => simp [validate_policy_fields, hg, hl, policy_field_ok, policy_list_ok]
      · simp [validate_policy_fields, hg, hl, policy_field_ok, ih]

theorem validate_fields_some_names (cfg : Dict) (fs : List String) (m : String)
    (h : validate_policy_fields cfg fs = some m) :
    ∃ f ∈ fs, strIn ("\x27" ++ f ++ "\x27") m = true ∧ policy_field_ok cfg f = false := by
  induction fs with
  | nil => simp [validate_policy_fields] at h
  | cons f rest ih =>
    cases hg : pyGet cfg f with
    | none =>
      simp only [validate_policy_fields, hg] at h
      refine ⟨f, by simp, ?_, by simp [policy_field_ok, hg]⟩
      obtain rfl : _ = m := Option.some.inj h
      exact strIn_mid _ _ _
    | some v =>
      by_cases hl : f ∈ policy_list_fields
      · have hlc : policy_list_fields.contains f = true := by simp [hl]
        cases v with
        | arr items =>
          by_cases hitems : items.all policy_item_ok = true
          · simp only [validate_policy_fields, hg, hlc, hitems, if_true] at h
            obtain ⟨f', hf', hq, hok⟩ := ih h
            exact ⟨f', by simp [hf'], hq, hok⟩
          · simp only [validate_policy_fields, hg, hlc, hitems, if_true,
              Bool.false_eq_true, if_false] at h
            refine ⟨f, by simp, ?_, ?_⟩
            · obtain rfl : _ = m := Option.some.inj h
              exact strIn_mid _ _ _
            · simp [policy_field_ok, hg, hl, policy_list_ok, hitems]
        | s x =>
          simp only [validate_policy_fields, hg, hlc, if_true] at h
          refine ⟨f, by simp, ?_, by simp [policy_field_ok, hg, hl, policy_list_ok]⟩
          obtain rfl : _ = m := Option.some.inj h
          exact strIn_mid _ _ _
        | i x =>
          simp only [validate_policy_fields, hg, hlc, if_true] at h
          refine ⟨f, by simp, ?_, by simp [policy_field_ok, hg, hl, policy_list_ok]⟩
          obtain rfl : _ = m := Option.some.inj h
          exact strIn_mid _ _ _
        | b x =>
          simp only [validate_policy_fields, hg, hlc, if_true] at h
          refine ⟨f, by simp, ?_, by simp [policy_field_ok, hg, hl, policy_list_ok]⟩
          obtain rfl : _ = m := Option.some.inj h
          exact strIn_mid _ _ _
        | dict x =>
          simp only [validate_policy_fields, hg, hlc, if_true] at h
          refine ⟨f, by simp, ?_, by simp [policy_field_ok, hg, hl, policy_list_ok]⟩
          obtain rfl : _ = m := Option.some.inj h
          exact strIn_mid _ _ _
        | none =>
          simp only [validate_policy_fields, hg, hlc, if_true] at h
          refine ⟨f, by simp, ?_, by simp [policy_field_ok, hg, hl, policy_list_ok]⟩
          obtain rfl : _ = m := Option.some.inj h
          exact strIn_mid _ _ _
      · have hlc : policy_list_fields.contains f = false := by simp [hl]
        simp only [validate_policy_fields, hg, hlc, Bool.false_eq_true, if_false] at h
        obtain ⟨f', hf', hq, hok⟩ := ih h
        exact ⟨f', by simp [hf'], hq, hok⟩

/-- C4 (counterexample): the claim "an empty list value for a list-valued
field such as `srcintf` is rejected before any device call" is false: a
policy config whose `srcintf` is the empty list passes validation, the
device call is made, and the outcome depends on the device's response. -/
theorem c4_counterexample :
    validate_policy
      [("name", .s "p"), ("srcintf", .arr []),
       ("dstintf", .arr [.dict [("name", .s "port2")]]),
       ("srcaddr", .arr [.dict [("name", .s "all")]]),
       ("dstaddr", .arr [.dict [("name", .s "all")]]),
       ("action", .s "accept"), ("schedule", .s "always"),
       ("service", .arr [.dict [("name", .s "HTTPS")]]),
       ("status", .s "enable")] = Option.none ∧
    pyGet (create_policy
      [("name", .s "p"), ("srcintf", .arr []),
       ("dstintf", .arr [.dict [("name", .s "port2")]]),
       ("srcaddr", .arr [.dict [("name", .s "all")]]),
       ("dstaddr", .arr [.dict [("name", .s "all")]]),
       ("action", .s "accept"), ("schedule", .s "always"),
       ("service", .arr [.dict [("name", .s "HTTPS")]]),
       ("status", .s "enable")]
      (.ok (.dictResp [("status", .s "success")]))) "status" = some (.s "success") ∧
    pyGet (create_policy
      [("name", .s "p"), ("srcintf", .arr []),
       ("dstintf", .arr [.dict [("name", .s "port2")]]),
       ("srcaddr", .arr [.dict [("name", .s "all")]]),
       ("dstaddr", .arr [.dict [("name", .s "all")]]),
       ("action", .s "accept"), ("schedule", .s "always"),
       ("service", .arr [.dict [("name", .s "HTTPS")]]),
       ("status", .s "enable")]
      (.error ⟨false, "boom", Option.none⟩)) "status" = Option.none :=
  ⟨rfl, rfl, rfl⟩

/-- C4 (amended): `create_policy` rejects a `policy_config` before any
device call (the returned mapping does not depend on the call's outcome),
with an error message that names an offending field, exactly when one of the
nine required fields is absent or one of the five list-valued fields is not
a list of dicts each containing a `name` key; an empty list for a
list-valued field is accepted, not rejected. -/
theorem c4_amended_policy_validation :
    (∀ (cfg : Dict) (m : String) (call : Except PyErr ApiResponse),
      validate_policy cfg = some m → create_policy cfg call = [("error", .s m)]) ∧
    (∀ cfg : Dict, validate_policy cfg = Option.none ↔
      ∀ f ∈ required_fields, policy_field_ok cfg f = true) ∧
    (∀ (cfg : Dict) (m : String), validate_policy cfg = some m →
      ∃ f ∈ required_fields, strIn ("\x27" ++ f ++ "\x27") m = true ∧
        policy_field_ok cfg f = false) := by
  refine ⟨?_, ?_, ?_⟩
  · intro cfg m call h
    simp [create_policy, h]
  · intro cfg
    exact validate_fields_none_iff cfg required_fields
  · intro cfg m h
    exact validate_fields_some_names cfg required_fields m h

/-- C4 (witness): the amended theorem applied to a config whose `srcintf`
is a dict instead of a list, and to a config missing `action`. -/
theorem c4_witness :
    create_policy [("name", .s "p"), ("srcintf", .dict [("name", .s "port1")])]
      (.ok (.dictResp [("status", .s "success")])) =
      [("error", .s "Field \x27srcintf\x27 must be a list for \x27p\x27 (e.g., [\x7b\"name\": \"value\"\x7d]).")] ∧
    (validate_policy [("name", .s "p")] = Option.none ↔
      ∀ f ∈ required_fields, policy_field_ok [("name", .s "p")] f = true) ∧
    (∃ f ∈ required_fields,
      strIn ("\x27" ++ f ++ "\x27")
        "Missing required field \x27srcintf\x27 in policy configuration for \x27p\x27." = true ∧
      policy_field_ok [("name", .s "p")] f = false) :=
  ⟨c4_amended_policy_validation.1 [("name", .s "p"), ("srcintf", .dict [("name", .s "port1")])]
      "Field \x27srcintf\x27 must be a list for \x27p\x27 (e.g., [\x7b\"name\": \"value\"\x7d])."
      (.ok (.dictResp [("status", .s "success")])) rfl,
   c4_amended_policy_validation.2.1 [("name", .s "p")],
   c4_amended_policy_validation.2.2 [("name", .s "p")]
     "Missing required field \x27srcintf\x27 in policy configuration for \x27p\x27." rfl⟩

/-- C5: `delete_policy` returns a `status: "success"` mapping (and no
`error` key) both when the client's delete call returns cleanly and when it
raises an exception whose text matches the not-found heuristics (`"404"`,
case-insensitive `"not found"`, or `"Entry not found"`): deleting an
already-absent policy is never reported as an error. -/
theorem c5_delete_policy_idempotent (policy_id : Int) (call : Except PyErr Unit)
    (h : call = .ok () ∨ ∃ e, call = .error e ∧ delNfHeur e.msg = true) :
    pyGet (delete_policy policy_id call) "status" = some (.s "success") ∧
    pyGet (delete_policy policy_id call) "error" = Option.none := by
  rcases h with rfl | ⟨e, rfl, he⟩
  · exact ⟨rfl, rfl⟩
  · simp only [delete_policy, he, if_true]
    exact ⟨rfl, rfl⟩

/-- C5 (witness): deleting policy 3 when the device raises
`"Entry not found"` still reports success. -/
theorem c5_witness :
    pyGet (delete_policy 3 (.error ⟨false, "Entry not found", Option.none⟩)) "status" =
      some (.s "success") ∧
    pyGet (delete_policy 3 (.error ⟨false, "Entry not found", Option.none⟩)) "error" =
      Option.none :=
  c5_delete_policy_idempotent 3 (.error ⟨false, "Entry not found", Option.none⟩)
    (Or.inr ⟨⟨false, "Entry not found", Option.none⟩, rfl, rfl⟩)

/-- C6 (counterexample): the claim "create_policy checks a nested `results`
structure for the generated `mkey`" is false: on a 2xx response whose body
is `{"results": {"mkey": 7}}` (no top-level `mkey`), the returned
`policy_id` is the caller-supplied name, even though the nested structure
carries `mkey` 7. -/
theorem c6_counterexample :
    pyGet (create_policy
      [("name", .s "MyPol"), ("srcintf", .arr [.dict [("name", .s "port1")]]),
       ("dstintf", .arr [.dict [("name", .s "port2")]]),
       ("srcaddr", .arr [.dict [("name", .s "all")]]),
       ("dstaddr", .arr [.dict [("name", .s "all")]]),
       ("action", .s "accept"), ("schedule", .s "always"),
       ("service", .arr [.dict [("name", .s "HTTPS")]]),
       ("status", .s "enable")]
      (.ok (.httpResp (some 200) (some (.dict [("results", .dict [("mkey", .i 7)])])) "raw")))
      "policy_id" = some (.s "MyPol") ∧
    pyGet (create_policy
      [("name", .s "MyPol"), ("srcintf", .arr [.dict [("name", .s "port1")]]),
       ("dstintf", .arr [.dict [("name", .s "port2")]]),
       ("srcaddr", .arr [.dict [("name", .s "all")]]),
       ("dstaddr", .arr [.dict [("name", .s "all")]]),
       ("action", .s "accept"), ("schedule", .s "always"),
       ("service", .arr [.dict [("name", .s "HTTPS")]]),
       ("status", .s "enable")]
      (.ok (.httpResp (some 200) (some (.dict [("results", .dict [("mkey", .i 7)])])) "raw")))
      "status" = some (.s "success") ∧
    pyGet [("mkey", .i 7)] "mkey" = some (.i 7) ∧
    JVal.s "MyPol" ≠ JVal.i 7 :=
  ⟨rfl, rfl, rfl, by intro h; cases h⟩

/-- C6 (amended): on a successful (2xx, non-error-marked) create response,
`create_policy` extracts the generated identifier from the top-level `mkey`
field of the response body only (no nested `results` inspection), and falls
back to the caller-supplied policy name when `mkey` is absent or when the
body is not a dict. -/
theorem c6_amended_mkey_extraction :
    (∀ (cfg : Dict) (c : Int) (bd : Dict) (t : String),
      validate_policy cfg = Option.none → c ≠ 0 → 200 ≤ c ∧ c < 300 →
      statusIs bd "error" = false →
      pyGet (create_policy cfg (.ok (.httpResp (some c) (some (.dict bd)) t))) "policy_id" =
        some ((pyGet bd "mkey").getD (policyName cfg))) ∧
    (∀ (cfg : Dict) (c : Int) (t : String),
      validate_policy cfg = Option.none → c ≠ 0 → 200 ≤ c ∧ c < 300 →
      pyGet (create_policy cfg (.ok (.httpResp (some c) Option.none t))) "policy_id" =
        some (policyName cfg)) := by
  constructor
  · intro cfg c bd t hval hc h2 hse
    have h0 : (c != 0) = true := by simpa using hc
    simp only [create_policy, hval, create_policy_resp, Option.getD, h0, if_true, h2,
      hse, Bool.false_eq_true, if_false]
    rfl
  · intro cfg c t hval hc h2
    have h0 : (c != 0) = true := by simpa using hc
    simp only [create_policy, hval, create_policy_resp, Option.getD, h0, if_true, h2]
    rfl

/-- C6 (witness): the amended theorem applied to a valid config and a 201
response carrying a top-level `mkey`, and to one with a non-JSON body. -/
theorem c6_witness :
    pyGet (create_policy
      [("name", .s "MyPol"), ("srcintf", .arr [.dict [("name", .s "port1")]]),
       ("dstintf", .arr [.dict [("name", .s "port2")]]),
       ("srcaddr", .arr [.dict [("name", .s "all")]]),
       ("dstaddr", .arr [.dict [("name", .s "all")]]),
       ("action", .s "accept"), ("schedule", .s "always"),
       ("service", .arr [.dict [("name", .s "HTTPS")]]),
       ("status", .s "enable")]
      (.ok (.httpResp (some 201) (some (.dict [("mkey", .i 42)])) "raw")))
      "policy_id" = some (.i 42) ∧
    pyGet (create_policy
      [("name", .s "MyPol"), ("srcintf", .arr [.dict [("name", .s "port1")]]),
       ("dstintf", .arr [.dict [("name", .s "port2")]]),
       ("srcaddr", .arr [.dict [("name", .s "all")]]),
       ("dstaddr", .arr [.dict [("name", .s "all")]]),
       ("action", .s "accept"), ("schedule", .s "always"),
       ("service", .arr [.dict [("name", .s "HTTPS")]]),
       ("status", .s "enable")]
      (.ok (.httpResp (some 200) Option.none "plain text")))
      "policy_id" = some (.s "MyPol") :=
  ⟨c6_amended_mkey_extraction.1
      [("name", .s "MyPol"), ("srcintf", .arr [.dict [("name", .s "port1")]]),
       ("dstintf", .arr [.dict [("name", .s "port2")]]),
       ("srcaddr", .arr [.dict [("name", .s "all")]]),
       ("dstaddr", .arr [.dict [("name", .s "all")]]),
       ("action", .s "accept"), ("schedule", .s "always"),
       ("service", .arr [.dict [("name", .s "HTTPS")]]),
       ("status", .s "enable")]
      201 [("mkey", .i 42)] "raw" rfl (by decide) (by constructor <;> decide) rfl,
   c6_amended_mkey_extraction.2
      [("name", .s "MyPol"), ("srcintf", .arr [.dict [("name", .s "port1")]]),
       ("dstintf", .arr [.dict [("name", .s "port2")]]),
       ("srcaddr", .arr [.dict [("name", .s "all")]]),
       ("dstaddr", .arr [.dict [("name", .s "all")]]),
       ("action", .s "accept"), ("schedule", .s "always"),
       ("service", .arr [.dict [("name", .s "HTTPS")]]),
       ("status", .s "enable")]
      200 "plain text" rfl (by decide) (by constructor <;> decide)⟩

theorem pyGet_append_none (d : Dict) (k : String) (v : JVal)
    (h : pyGet d k = Option.none) : pyGet (d ++ [(k, v)]) k = some v := by
  induction d with
  | nil => simp [pyGet]
  | cons p rest ih =>
    obtain ⟨a, b⟩ := p
    by_cases hk : a = k
    · rw [pyGet, if_pos hk] at h
      exact Option.noConfusion h
    · rw [pyGet, if_neg hk] at h
      rw [List.cons_append, pyGet, if_neg hk]
      exact ih h

theorem pyGet_append_other (d : Dict) (k k' : String) (v : JVal) (hne : k' ≠ k) :
    pyGet (d ++ [(k, v)]) k' = pyGet d k' := by
  induction d with
  | nil =>
    simp only [List.nil_append, pyGet]
    rw [if_neg (Ne.symm hne)]
  | cons p rest ih =>
    obtain ⟨a, b⟩ := p
    rw [List.cons_append, pyGet, pyGet]
    by_cases hk : a = k'
    · rw [if_pos hk, if_pos hk]
    · rw [if_neg hk, if_neg hk]
      exact ih

/-- C7: when a `route_config` containing `dst`, `gateway` and `device` but
no `status` key is passed to `create_static_route`, the caller's mapping is
mutated in place to carry `status: "enable"` (appended, all other keys
unchanged), and the device's create call receives exactly that mutated
mapping. -/
theorem c7_route_status_default (cfg : Dict) (call : Dict → Except PyErr ApiResponse)
    (hval : validate_route cfg = Option.none) (hst : pyGet cfg "status" = Option.none) :
    (create_static_route cfg call).2 = cfg ++ [("status", .s "enable")] ∧
    pyGet (create_static_route cfg call).2 "status" = some (.s "enable") ∧
    (∀ k, k ≠ "status" → pyGet (create_static_route cfg call).2 k = pyGet cfg k) ∧
    (create_static_route cfg call).1 =
      (match call (cfg ++ [("status", .s "enable")]) with
       | .error e =>
         [("error", .s ("API exception during static route creation for dst \x27" ++
            pyStr ((pyGet cfg "dst").getD (.s "N/A")) ++ "\x27.")),
          ("details", match e.resp with
            | some er => parse_err_resp_s er
            | Option.none => .s e.msg)]
       | .ok r => route_resp_handle ((pyGet cfg "dst").getD (.s "N/A")) r) := by
  have hset : pySetdefault cfg "status" (.s "enable") = cfg ++ [("status", .s "enable")] := by
    simp [pySetdefault, hst]
  refine ⟨?_, ?_, ?_, ?_⟩
  · simp only [create_static_route, hval, hset]
  · simp only [create_static_route, hval, hset]
    exact pyGet_append_none cfg "status" (.s "enable") hst
  · intro k hk
    simp only [create_static_route, hval, hset]
    exact pyGet_append_other cfg "status" k (.s "enable") hk
  · simp only [create_static_route, hval, hset]

/-- C7 (witness): a concrete route config without `status`; the caller's
mapping after the call carries the appended default. -/
theorem c7_witness :
    (create_static_route
      [("dst", .s "10.250.0.0 255.255.0.0"), ("gateway", .s "192.168.1.254"),
       ("device", .s "port1")] (fun _ => .ok (.other "weird"))).2 =
      [("dst", .s "10.250.0.0 255.255.0.0"), ("gateway", .s "192.168.1.254"),
       ("device", .s "port1"), ("status", .s "enable")] ∧
    pyGet (create_static_route
      [("dst", .s "10.250.0.0 255.255.0.0"), ("gateway", .s "192.168.1.254"),
       ("device", .s "port1")] (fun _ => .ok (.other "weird"))).2 "status" =
      some (.s "enable") :=
  ⟨(c7_route_status_default
      [("dst", .s "10.250.0.0 255.255.0.0"), ("gateway", .s "192.168.1.254"),
       ("device", .s "port1")] (fun _ => .ok (.other "weird")) rfl rfl).1,
   (c7_route_status_default
      [("dst", .s "10.250.0.0 255.255.0.0"), ("gateway", .s "192.168.1.254"),
       ("device", .s "port1")] (fun _ => .ok (.other "weird")) rfl rfl).2.1⟩

/-- C8: the traffic-log mock returns exactly the single sample row whose
`srcip` equals `10.0.1.10` for `log_filter="srcip=10.0.1.10", max_logs=5`;
the first two of the three fixed rows for no filter and `max_logs=2`; and in
general a `key=value` filter keeps the rows whose stringified field equals
the value case-insensitively, a filter without `=` keeps the rows containing
it as a case-insensitive substring of the stringified row, and the result is
truncated to the first `max_logs` rows. -/
theorem c8_traffic_logs_mock :
    (get_traffic_logs () (some "srcip=10.0.1.10") 5 "1hour" =
      [[("logid", .s "0000000013"), ("timestamp", .s "2024-05-18 10:00:00"),
        ("srcip", .s "10.0.1.10"), ("dstip", .s "8.8.8.8"), ("dstport", .s "53"),
        ("proto", .i 17), ("action", .s "accept"), ("policyid", .i 1),
        ("msg", .s "Mock Traffic: DNS query accepted")]] ∧
     pyGet [("logid", .s "0000000013"), ("timestamp", .s "2024-05-18 10:00:00"),
        ("srcip", .s "10.0.1.10"), ("dstip", .s "8.8.8.8"), ("dstport", .s "53"),
        ("proto", .i 17), ("action", .s "accept"), ("policyid", .i 1),
        ("msg", .s "Mock Traffic: DNS query accepted")] "srcip" = some (.s "10.0.1.10")) ∧
    get_traffic_logs () Option.none 2 "1hour" =
      [[("logid", .s "0000000013"), ("timestamp", .s "2024-05-18 10:00:00"),
        ("srcip", .s "10.0.1.10"), ("dstip", .s "8.8.8.8"), ("dstport", .s "53"),
        ("proto", .i 17), ("action", .s "accept"), ("policyid", .i 1),
        ("msg", .s "Mock Traffic: DNS query accepted")],
       [("logid", .s "0000000014"), ("timestamp", .s "2024-05-18 10:00:05"),
        ("srcip", .s "10.0.1.11"), ("dstip", .s "1.1.1.1"), ("dstport", .s "443"),
        ("proto", .i 6), ("action", .s "accept"), ("policyid", .i 2),
        ("msg", .s "Mock Traffic: HTTPS accepted")]] ∧
    (∀ (f k v : String) (m : Int) (t : String), f ≠ "" → splitOnceEq f = some (k, v) →
      get_traffic_logs () (some f) m t = pySliceTo (mock_logs.filter (logMatchesKV k v)) m) ∧
    (∀ (f : String) (m : Int) (t : String), f ≠ "" → splitOnceEq f = Option.none →
      get_traffic_logs () (some f) m t = pySliceTo (mock_logs.filter (logMatchesSub f)) m) ∧
    (∀ {α : Type} (cl : α) (f : Option String) (m : Int) (t : String), 0 ≤ m →
      (get_traffic_logs cl f m t).length ≤ m.toNat) := by
  refine ⟨⟨rfl, rfl⟩, rfl, ?_, ?_, ?_⟩
  · intro f k v m t hne hsplit
    simp [get_traffic_logs, hne, hsplit]
  · intro f m t hne hsplit
    simp [get_traffic_logs, hne, hsplit]
  · intro α cl f m t hm
    have hlt : ¬ m < 0 := not_lt.2 hm
    unfold get_traffic_logs pySliceTo
    rw [if_neg hlt]
    exact List.length_take_le _ _

/-- C8 (witness): the general filter clauses applied to the concrete filters
`"dstport=443"` (single `=`) and `"ssh"` (no `=`), and the truncation bound
at `max_logs=1`. -/
theorem c8_witness :
    get_traffic_logs () (some "dstport=443") 7 "24hours" =
      pySliceTo (mock_logs.filter (logMatchesKV "dstport" "443")) 7 ∧
    get_traffic_logs () (some "ssh") 7 "24hours" =
      pySliceTo (mock_logs.filter (logMatchesSub "ssh")) 7 ∧
    (get_traffic_logs () Option.none 1 "1hour").length ≤ 1 :=
  ⟨c8_traffic_logs_mock.2.2.1 "dstport=443" "dstport" "443" 7 "24hours" (by decide) rfl,
   c8_traffic_logs_mock.2.2.2.1 "ssh" 7 "24hours" (by decide) rfl,
   c8_traffic_logs_mock.2.2.2.2 () Option.none 1 "1hour" (by decide)⟩

/-- C9 (counterexample): the claim "policy reorder is the only operation
whose outcome carries a status outside {success, warning, error}" is false:
`create_address_object` returns `status: "unknown"` when the client's
response is an unexpected (non-Response, non-dict) value. -/
theorem c9_counterexample :
    pyGet (create_address_object
      [("name", .s "a1"), ("type", .s "fqdn"), ("fqdn", .s "x.com")]
      (.ok (.other "weird object"))) "status" = some (.s "unknown") ∧
    ("unknown" : String) ≠ "success" ∧ ("unknown" : String) ≠ "warning" ∧
    ("unknown" : String) ≠ "error" ∧ ("unknown" : String) ≠ "processed" :=
  ⟨rfl, by decide, by decide, by decide, by decide⟩

/-- C9 (amended): given a valid move direction, `reorder_policy` returns an
outcome with status `"processed"` exactly when the client's set call returns
without raising and the response carries no explicit success/error status
marker; but reorder is not the only operation with a status outside
{success, warning, error}: `create_address_object` returns
`status: "unknown"` for an unexpected response type. -/
theorem c9_amended_processed_status :
    (∀ (ma : String) (pid tid : Int) (call : Except PyErr ApiResponse),
      (ma = "before" ∨ ma = "after") →
      (pyGet (reorder_policy ma pid tid call) "status" = some (.s "processed") ↔
        ∃ r, call = .ok r ∧ noMarker r = true)) ∧
    pyGet (create_address_object
      [("name", .s "a1"), ("type", .s "fqdn"), ("fqdn", .s "x.com")]
      (.ok (.other "weird"))) "status" = some (.s "unknown") := by
  refine ⟨?_, rfl⟩
  intro ma pid tid call hma
  have hcond : (ma != "before" && ma != "after") = false := by
    rcases hma with rfl | rfl <;> rfl
  constructor
  · intro h
    simp only [reorder_policy, hcond, Bool.false_eq_true, if_false] at h
    cases call with
    | error e =>
      exact Option.noConfusion
        (show (Option.none : Option JVal) = some (.s "processed") from h)
    | ok r =>
      cases r with
      | dictResp d =>
        by_cases hs : statusIs d "success" = true
        · simp only [hs, if_true] at h
          exact absurd
            (show some (JVal.s "success") = some (JVal.s "processed") from h) (by simp)
        · by_cases he : statusIs d "error" = true
          · simp only [hs, Bool.false_eq_true, if_false, he, if_true] at h
            exact Option.noConfusion
              (show (Option.none : Option JVal) = some (.s "processed") from h)
          · exact ⟨.dictResp d, rfl, by simp [noMarker, hs, he]⟩
      | httpResp sc b t => exact ⟨.httpResp sc b t, rfl, rfl⟩
      | other s => exact ⟨.other s, rfl, rfl⟩
  · rintro ⟨r, rfl, hnm⟩
    simp only [reorder_policy, hcond, Bool.false_eq_true, if_false]
    cases r with
    | dictResp d =>
      simp only [noMarker, Bool.not_eq_true', Bool.or_eq_false_iff] at hnm
      obtain ⟨hs, he⟩ := hnm
      simp only [hs, he, Bool.false_eq_true, if_false]
      rfl
    | httpResp sc b t => rfl
    | other s => rfl

/-- C9 (witness): the processed-iff clause applied to a concrete move of
policy 5 before policy 9 with a marker-free dict response. -/
theorem c9_witness :
    pyGet (reorder_policy "before" 5 9 (.ok (.dictResp [("revision", .s "r1")])))
      "status" = some (.s "processed") :=
  (c9_amended_processed_status.1 "before" 5 9 (.ok (.dictResp [("revision", .s "r1")]))
    (Or.inl rfl)).2 ⟨.dictResp [("revision", .s "r1")], rfl, rfl⟩

/-- C10: the traffic-log mock is a pure function of `log_filter` and
`max_logs` alone: two invocations with equal filter and count return
identical values for any client values (of any types) and any time ranges —
the client is never invoked, so the operation cannot fail due to the
device. -/
theorem c10_traffic_logs_pure {α β : Type} (c1 : α) (c2 : β)
    (log_filter : Option String) (max_logs : Int) (t1 t2 : String) :
    get_traffic_logs c1 log_filter max_logs t1 =
      get_traffic_logs c2 log_filter max_logs t2 := rfl

end McpForti
